import Mathlib

/-
  Verification of the distillation-column flooding calculator (`main.py`).

  The source is a single Python class `DistillationColumn` whose methods are
  closed-form floating-point formulas.  We embed it shallowly over ℝ:

  * each float becomes a real number;
  * Python float division raises `ZeroDivisionError` for a zero denominator,
    `math.sqrt` raises `ValueError` on a negative argument, and `math.log10`
    raises `ValueError` on a non-positive argument — so every fallible
    operation returns `Except PyErr ℝ` and the method bodies are the exact
    left-to-right sequencing of the Python expressions;
  * `x ** y` on floats (used with base `10` and base `surface_tension / 20`
    at positive arguments in every claim we settle) becomes `Real.rpow`;
    `x ** 2` becomes the monoid square;
  * attribute reads are field projections; since no method assigns to `self`,
    the state-passing versions (`…S`) return the incoming record as the
    outgoing state.
-/

noncomputable section

namespace Flooding

/-- Python runtime errors the arithmetic in `main.py` can raise. -/
inductive PyErr where
  | zeroDivision
  | valueError
deriving DecidableEq, Repr

/-- The attribute record of a `DistillationColumn` instance: the eleven
constructor parameters plus the derived `cross_sectional_area`, exactly the
twelve attributes `__init__` stores on `self`. -/
structure DistillationColumn where
  diameter : ℝ
  Dmole_flow : ℝ
  Bmole_flow : ℝ
  Dmass_flow : ℝ
  Bmass_flow : ℝ
  reflux_ratio : ℝ
  boilup_ratio : ℝ
  liquid_density : ℝ
  vapor_density : ℝ
  molecular_weight : ℝ
  surface_tension : ℝ
  cross_sectional_area : ℝ

/-- `DistillationColumn.__init__`: stores the eleven parameters unchanged and
computes `cross_sectional_area = 0.85 * (math.pi * diameter ** 2) / 4`.
The Python constructor performs no validation and cannot fail. -/
def mkDistillationColumn (diameter Dmole_flow Bmole_flow Dmass_flow Bmass_flow
    reflux_ratio boilup_ratio liquid_density vapor_density molecular_weight
    surface_tension : ℝ) : DistillationColumn :=
  { diameter := diameter
    Dmole_flow := Dmole_flow
    Bmole_flow := Bmole_flow
    Dmass_flow := Dmass_flow
    Bmass_flow := Bmass_flow
    reflux_ratio := reflux_ratio
    boilup_ratio := boilup_ratio
    liquid_density := liquid_density
    vapor_density := vapor_density
    molecular_weight := molecular_weight
    surface_tension := surface_tension
    cross_sectional_area := 0.85 * (Real.pi * diameter ^ 2) / 4 }

/-- Python float division: raises `ZeroDivisionError` when the denominator is
zero, otherwise real division. -/
def fdiv (a b : ℝ) : Except PyErr ℝ :=
  if b = 0 then .error .zeroDivision else .ok (a / b)

/-- `math.sqrt`: raises `ValueError` on a negative argument. -/
def fsqrt (x : ℝ) : Except PyErr ℝ :=
  if x < 0 then .error .valueError else .ok (Real.sqrt x)

/-- `math.log10`: raises `ValueError` on a non-positive argument. -/
def flog10 (x : ℝ) : Except PyErr ℝ :=
  if x ≤ 0 then .error .valueError else .ok (Real.logb 10 x)

/-- `calculate_flow_rates`: returns the tuple
`(Vmole_flow, Bmole_flow, Vmass_flow, Bmass_flow)` of reflux/boilup-adjusted
flows.  Pure arithmetic, no division, cannot fail. -/
def calculate_flow_rates (c : DistillationColumn) : ℝ × ℝ × ℝ × ℝ :=
  (c.Dmole_flow * (c.reflux_ratio + 1),
   c.Bmole_flow * (c.boilup_ratio + 1),
   c.Dmass_flow * (c.reflux_ratio + 1),
   c.Bmass_flow * (c.boilup_ratio + 1))

/-- `calculate_opt_velocity`: `Vmole_flow * MW / (vapor_density * area * 3600)`
in m/s, then divided by `0.3048` to convert to ft/s. -/
def calculate_opt_velocity (c : DistillationColumn) (Vmole_flow : ℝ) :
    Except PyErr ℝ := do
  let v_opt ← fdiv (Vmole_flow * c.molecular_weight)
      (c.vapor_density * c.cross_sectional_area * 3600)
  fdiv v_opt 0.3048

/-- `calculate_flooding_velocity`: the Souders–Brown/Fair correlation, with the
Python evaluation order of the fallible sub-expressions. -/
def calculate_flooding_velocity (c : DistillationColumn)
    (Bmass_flow Vmass_flow : ℝ) : Except PyErr ℝ := do
  let ratio ← fdiv Bmass_flow Vmass_flow
  let densRatio ← fdiv c.vapor_density c.liquid_density
  let densRoot ← fsqrt densRatio
  let Flv := ratio * densRoot
  let lg ← flog10 Flv
  let Csbf := (10 : ℝ) ^ (-1.0262 - 0.63513 * lg - 0.20097 * lg ^ 2)
  let sigmaRatio ← fdiv c.surface_tension 20
  let densDiff ← fdiv (c.liquid_density - c.vapor_density) c.vapor_density
  let diffRoot ← fsqrt densDiff
  return Csbf * sigmaRatio ^ (0.2 : ℝ) * diffRoot

/-- The result dictionary returned by `simulate`. -/
structure EvaluationResult where
  flooding_velocity : ℝ
  operating_velocity : ℝ
  flooding_percentage : ℝ

/-- `simulate`: flow rates, then operating velocity from `Vmole_flow`, then
flooding velocity from `(Bmass_flow, Vmass_flow)`, then the percentage
`v_opt / v_flood * 100`. -/
def simulate (c : DistillationColumn) : Except PyErr EvaluationResult := do
  let flows := calculate_flow_rates c
  let v_opt ← calculate_opt_velocity c flows.1
  let v_flood ← calculate_flooding_velocity c flows.2.2.2 flows.2.2.1
  let p ← fdiv v_opt v_flood
  return { flooding_velocity := v_flood
           operating_velocity := v_opt
           flooding_percentage := p * 100 }

/-- State-passing form of `calculate_flow_rates`: the method body reads
attributes but assigns none, so the outgoing state is the incoming record. -/
def calculate_flow_ratesS (c : DistillationColumn) :
    (ℝ × ℝ × ℝ × ℝ) × DistillationColumn :=
  (calculate_flow_rates c, c)

/-- State-passing form of `calculate_opt_velocity` (no attribute writes). -/
def calculate_opt_velocityS (c : DistillationColumn) (Vmole_flow : ℝ) :
    Except PyErr ℝ × DistillationColumn :=
  (calculate_opt_velocity c Vmole_flow, c)

/-- State-passing form of `calculate_flooding_velocity` (no attribute writes). -/
def calculate_flooding_velocityS (c : DistillationColumn)
    (Bmass_flow Vmass_flow : ℝ) : Except PyErr ℝ × DistillationColumn :=
  (calculate_flooding_velocity c Bmass_flow Vmass_flow, c)

/-- State-passing form of `simulate` (no attribute writes anywhere in the
pipeline). -/
def simulateS (c : DistillationColumn) :
    Except PyErr EvaluationResult × DistillationColumn :=
  (simulate c, c)

/-- A fresh spec with the four flow inputs scaled by `k`, all other
constructor inputs unchanged (the derived area depends only on `diameter`,
hence is also unchanged). -/
def scaleFlows (k : ℝ) (c : DistillationColumn) : DistillationColumn :=
  { c with
    Dmole_flow := k * c.Dmole_flow
    Bmole_flow := k * c.Bmole_flow
    Dmass_flow := k * c.Dmass_flow
    Bmass_flow := k * c.Bmass_flow }

/-- Spec-side closed form of the flow parameter
`Flv = (B / V) * sqrt(vapor_density / liquid_density)`. -/
def specFlv (c : DistillationColumn) (B V : ℝ) : ℝ :=
  B / V * Real.sqrt (c.vapor_density / c.liquid_density)

/-- Spec-side closed form of the capacity factor
`Csbf = 10^(-1.0262 - 0.63513 log10 Flv - 0.20097 (log10 Flv)^2)`. -/
def specCsbf (c : DistillationColumn) (B V : ℝ) : ℝ :=
  (10 : ℝ) ^ (-1.0262 - 0.63513 * Real.logb 10 (specFlv c B V)
      - 0.20097 * Real.logb 10 (specFlv c B V) ^ 2)

/-- Spec-side closed form of the flooding velocity
`Csbf * (surface_tension / 20)^0.2 * sqrt((liquid - vapor) / vapor)` (ft/s,
no further conversion). -/
def specVflood (c : DistillationColumn) (B V : ℝ) : ℝ :=
  specCsbf c B V * (c.surface_tension / 20) ^ (0.2 : ℝ)
    * Real.sqrt ((c.liquid_density - c.vapor_density) / c.vapor_density)

/-- Spec-side closed form of the operating velocity
`(Vmole * MW / (vapor_density * area * 3600)) / 0.3048` (ft/s). -/
def specVopt (c : DistillationColumn) (Vmole : ℝ) : ℝ :=
  Vmole * c.molecular_weight
      / (c.vapor_density * c.cross_sectional_area * 3600) / 0.3048

section Helpers

lemma ok_bind {α β : Type} (a : α) (f : α → Except PyErr β) :
    (Except.ok a >>= f) = f a := rfl

lemma error_bind {α β : Type} (e : PyErr) (f : α → Except PyErr β) :
    ((Except.error e : Except PyErr α) >>= f) = Except.error e := rfl

lemma fdiv_ok {a b : ℝ} (h : b ≠ 0) : fdiv a b = .ok (a / b) := by
  simp [fdiv, h]

lemma fdiv_zero (a : ℝ) : fdiv a 0 = .error .zeroDivision := by
  simp [fdiv]

lemma fsqrt_ok {x : ℝ} (h : 0 ≤ x) : fsqrt x = .ok (Real.sqrt x) := by
  simp [fsqrt, not_lt.mpr h]

lemma flog10_ok {x : ℝ} (h : 0 < x) : flog10 x = .ok (Real.logb 10 x) := by
  simp [flog10, not_le.mpr h]

lemma bind_eq_ok_iff {α β : Type} {x : Except PyErr α}
    {f : α → Except PyErr β} {b : β} :
    (x >>= f) = .ok b ↔ ∃ a, x = .ok a ∧ f a = .ok b := by
  cases x with
  | error e => simp [error_bind]
  | ok a => simp [ok_bind]

lemma fdiv_eq_ok_iff {a b y : ℝ} :
    fdiv a b = .ok y ↔ b ≠ 0 ∧ y = a / b := by
  unfold fdiv
  split
  · simp_all
  · simp_all [eq_comm]

/-- Under the domain conditions the code path of the flooding-velocity method
succeeds and returns the spec-side closed form. -/
lemma calculate_flooding_velocity_eq (c : DistillationColumn) (B V : ℝ)
    (hV : V ≠ 0) (hBV : 0 < B / V) (hρv : 0 < c.vapor_density)
    (hρl : c.vapor_density < c.liquid_density) :
    calculate_flooding_velocity c B V = .ok (specVflood c B V) := by
  have hρl0 : 0 < c.liquid_density := lt_trans hρv hρl
  have hq : 0 < c.vapor_density / c.liquid_density := div_pos hρv hρl0
  have hFlv : 0 < B / V * Real.sqrt (c.vapor_density / c.liquid_density) :=
    mul_pos hBV (Real.sqrt_pos.mpr hq)
  have hdd : 0 ≤ (c.liquid_density - c.vapor_density) / c.vapor_density :=
    le_of_lt (div_pos (sub_pos.mpr hρl) hρv)
  simp only [calculate_flooding_velocity, fdiv_ok hV, fdiv_ok (ne_of_gt hρl0),
    fdiv_ok (show (20 : ℝ) ≠ 0 by norm_num), fdiv_ok (ne_of_gt hρv),
    fsqrt_ok (le_of_lt hq), fsqrt_ok hdd, flog10_ok hFlv, ok_bind]
  rfl

/-- Under the domain condition the operating-velocity method succeeds and
returns the spec-side closed form. -/
lemma calculate_opt_velocity_eq (c : DistillationColumn) (Vmole : ℝ)
    (hden : c.vapor_density * c.cross_sectional_area * 3600 ≠ 0) :
    calculate_opt_velocity c Vmole = .ok (specVopt c Vmole) := by
  rw [calculate_opt_velocity, fdiv_ok hden, ok_bind,
    fdiv_ok (by norm_num : (0.3048 : ℝ) ≠ 0)]
  rfl

/-- The spec-side flooding velocity is strictly positive for physically valid
densities and positive surface tension. -/
lemma specVflood_pos (c : DistillationColumn) (B V : ℝ)
    (hρv : 0 < c.vapor_density) (hρl : c.vapor_density < c.liquid_density)
    (hσ : 0 < c.surface_tension) : 0 < specVflood c B V := by
  have h10 : (0 : ℝ) < 10 := by norm_num
  have hσ20 : 0 < c.surface_tension / 20 := by positivity
  have hdd : 0 < (c.liquid_density - c.vapor_density) / c.vapor_density :=
    div_pos (sub_pos.mpr hρl) hρv
  exact mul_pos (mul_pos (Real.rpow_pos_of_pos h10 _)
    (Real.rpow_pos_of_pos hσ20 _)) (Real.sqrt_pos.mpr hdd)

/-- Under the domain conditions the whole `simulate` pipeline succeeds and
returns the spec-side closed forms of both velocities and their percentage. -/
lemma simulate_eq_ok (c : DistillationColumn)
    (hden : c.vapor_density * c.cross_sectional_area * 3600 ≠ 0)
    (hV : c.Dmass_flow * (c.reflux_ratio + 1) ≠ 0)
    (hBV : 0 < c.Bmass_flow * (c.boilup_ratio + 1)
      / (c.Dmass_flow * (c.reflux_ratio + 1)))
    (hρv : 0 < c.vapor_density) (hρl : c.vapor_density < c.liquid_density)
    (hσ : 0 < c.surface_tension) :
    simulate c = .ok
      { flooding_velocity := specVflood c (c.Bmass_flow * (c.boilup_ratio + 1))
          (c.Dmass_flow * (c.reflux_ratio + 1))
        operating_velocity := specVopt c (c.Dmole_flow * (c.reflux_ratio + 1))
        flooding_percentage := specVopt c (c.Dmole_flow * (c.reflux_ratio + 1))
          / specVflood c (c.Bmass_flow * (c.boilup_ratio + 1))
            (c.Dmass_flow * (c.reflux_ratio + 1)) * 100 } := by
  have hfl := calculate_flooding_velocity_eq c
    (c.Bmass_flow * (c.boilup_ratio + 1))
    (c.Dmass_flow * (c.reflux_ratio + 1)) hV hBV hρv hρl
  have hopt := calculate_opt_velocity_eq c
    (c.Dmole_flow * (c.reflux_ratio + 1)) hden
  have hpos := specVflood_pos c (c.Bmass_flow * (c.boilup_ratio + 1))
    (c.Dmass_flow * (c.reflux_ratio + 1)) hρv hρl hσ
  simp only [simulate, calculate_flow_rates]
  rw [hopt, ok_bind, hfl, ok_bind, fdiv_ok (ne_of_gt hpos), ok_bind]
  rfl

/-- The concrete column used as evaluation point by several witnesses:
`DistillationColumn(1, 1, 1, 1, 1, 0, 0, 4, 1, 1, 20)`. -/
def exampleColumn : DistillationColumn :=
  mkDistillationColumn 1 1 1 1 1 0 0 4 1 1 20

lemma exampleColumn_den :
    exampleColumn.vapor_density * exampleColumn.cross_sectional_area * 3600
      ≠ 0 := by
  have hπ := Real.pi_pos
  simp only [exampleColumn, mkDistillationColumn]
  positivity

lemma simulate_exampleColumn :
    simulate exampleColumn = .ok
      { flooding_velocity := specVflood exampleColumn 1 1
        operating_velocity := specVopt exampleColumn 1
        flooding_percentage :=
          specVopt exampleColumn 1 / specVflood exampleColumn 1 1 * 100 } := by
  have h := simulate_eq_ok exampleColumn exampleColumn_den
    (by simp [exampleColumn, mkDistillationColumn])
    (by simp [exampleColumn, mkDistillationColumn])
    (by simp [exampleColumn, mkDistillationColumn])
    (by simp [exampleColumn, mkDistillationColumn])
    (by simp [exampleColumn, mkDistillationColumn])
  simpa [exampleColumn, mkDistillationColumn] using h

end Helpers

/-- Claim C1: for every ColumnSpec with positive mass flows and
`liquid_density > vapor_density > 0`, `calculate_flooding_velocity(B, V, spec)`
returns `Csbf * (surface_tension/20)^0.2 * sqrt((liquid_density -
vapor_density)/vapor_density)` in ft/s, where
`Flv = (B/V) * sqrt(vapor_density/liquid_density)` and
`Csbf = 10^(-1.0262 - 0.63513 log10 Flv - 0.20097 (log10 Flv)^2)`, with no
further unit conversion applied to the result. -/
theorem C1_flooding_velocity_formula (c : DistillationColumn) (B V : ℝ)
    (hB : 0 < B) (hV : 0 < V) (hρv : 0 < c.vapor_density)
    (hρl : c.vapor_density < c.liquid_density) :
    calculate_flooding_velocity c B V = .ok
      ((10 : ℝ) ^ (-1.0262
          - 0.63513 * Real.logb 10
              (B / V * Real.sqrt (c.vapor_density / c.liquid_density))
          - 0.20097 * Real.logb 10
              (B / V * Real.sqrt (c.vapor_density / c.liquid_density)) ^ 2)
        * (c.surface_tension / 20) ^ (0.2 : ℝ)
        * Real.sqrt ((c.liquid_density - c.vapor_density) / c.vapor_density)) :=
  calculate_flooding_velocity_eq c B V (ne_of_gt hV) (div_pos hB hV) hρv hρl

/-- Witness for C1 at the concrete column
`DistillationColumn(1, 1, 1, 1, 1, 0, 0, 4, 1, 1, 20)` with `B = V = 1`. -/
theorem C1_flooding_velocity_formula_witness :
    (0 : ℝ) < 1 ∧ 0 < exampleColumn.vapor_density
      ∧ exampleColumn.vapor_density < exampleColumn.liquid_density
      ∧ calculate_flooding_velocity exampleColumn 1 1 = .ok
        ((10 : ℝ) ^ (-1.0262
            - 0.63513 * Real.logb 10
                ((1 : ℝ) / 1 * Real.sqrt
                  (exampleColumn.vapor_density / exampleColumn.liquid_density))
            - 0.20097 * Real.logb 10
                ((1 : ℝ) / 1 * Real.sqrt
                  (exampleColumn.vapor_density / exampleColumn.liquid_density))
                ^ 2)
          * (exampleColumn.surface_tension / 20) ^ (0.2 : ℝ)
          * Real.sqrt ((exampleColumn.liquid_density
              - exampleColumn.vapor_density) / exampleColumn.vapor_density)) :=
  ⟨by norm_num, by simp [exampleColumn, mkDistillationColumn],
    by simp [exampleColumn, mkDistillationColumn],
    C1_flooding_velocity_formula exampleColumn 1 1 (by norm_num) (by norm_num)
      (by simp [exampleColumn, mkDistillationColumn])
      (by simp [exampleColumn, mkDistillationColumn])⟩

/-- Claim C2: for every ColumnSpec with `vapor_density > 0` and
`cross_sectional_area > 0`, `calculate_opt_velocity(Vmole_flow)` returns
`(Vmole_flow * molecular_weight / (vapor_density * cross_sectional_area *
3600)) / 0.3048`, i.e. the m/s operating velocity converted to ft/s by
dividing by 0.3048. -/
theorem C2_opt_velocity_formula (c : DistillationColumn) (Vmole : ℝ)
    (hρv : 0 < c.vapor_density) (hA : 0 < c.cross_sectional_area) :
    calculate_opt_velocity c Vmole = .ok
      (Vmole * c.molecular_weight
        / (c.vapor_density * c.cross_sectional_area * 3600) / 0.3048) :=
  calculate_opt_velocity_eq c Vmole
    (by positivity)

/-- Witness for C2 at the concrete column
`DistillationColumn(1, 1, 1, 1, 1, 0, 0, 4, 1, 1, 20)` with `Vmole = 7`. -/
theorem C2_opt_velocity_formula_witness :
    0 < exampleColumn.vapor_density ∧ 0 < exampleColumn.cross_sectional_area
      ∧ calculate_opt_velocity exampleColumn 7 = .ok
        ((7 : ℝ) * exampleColumn.molecular_weight
          / (exampleColumn.vapor_density * exampleColumn.cross_sectional_area
            * 3600) / 0.3048) :=
  ⟨by simp [exampleColumn, mkDistillationColumn],
    by
      have hπ := Real.pi_pos
      simp only [exampleColumn, mkDistillationColumn]
      positivity,
    C2_opt_velocity_formula exampleColumn 7
      (by simp [exampleColumn, mkDistillationColumn])
      (by
        have hπ := Real.pi_pos
        simp only [exampleColumn, mkDistillationColumn]
        positivity)⟩

/-- Claim C3: `calculate_flow_rates` returns exactly the four products
`Dmole_flow*(reflux_ratio+1)`, `Bmole_flow*(boilup_ratio+1)`,
`Dmass_flow*(reflux_ratio+1)`, `Bmass_flow*(boilup_ratio+1)`; in particular at
`reflux_ratio = 0` the vapor mole flow equals the nominal distillate mole flow
exactly. -/
theorem C3_flow_rates_formula (c : DistillationColumn) :
    calculate_flow_rates c
      = (c.Dmole_flow * (c.reflux_ratio + 1),
         c.Bmole_flow * (c.boilup_ratio + 1),
         c.Dmass_flow * (c.reflux_ratio + 1),
         c.Bmass_flow * (c.boilup_ratio + 1))
    ∧ (c.reflux_ratio = 0 → (calculate_flow_rates c).1 = c.Dmole_flow) := by
  refine ⟨rfl, fun h => ?_⟩
  simp [calculate_flow_rates, h]

/-- Witness for C3 at the concrete column
`DistillationColumn(1, 1, 1, 1, 1, 0, 0, 4, 1, 1, 20)` (whose reflux ratio is
zero). -/
theorem C3_flow_rates_formula_witness :
    calculate_flow_rates exampleColumn
      = (exampleColumn.Dmole_flow * (exampleColumn.reflux_ratio + 1),
         exampleColumn.Bmole_flow * (exampleColumn.boilup_ratio + 1),
         exampleColumn.Dmass_flow * (exampleColumn.reflux_ratio + 1),
         exampleColumn.Bmass_flow * (exampleColumn.boilup_ratio + 1))
    ∧ (calculate_flow_rates exampleColumn).1 = exampleColumn.Dmole_flow :=
  ⟨(C3_flow_rates_formula exampleColumn).1,
    (C3_flow_rates_formula exampleColumn).2
      (by simp [exampleColumn, mkDistillationColumn])⟩

/-- Claim C4: whenever `simulate` succeeds, the returned result satisfies
`flooding_percentage = operating_velocity / flooding_velocity * 100` exactly,
with the velocities being the ones computed from that same spec. -/
theorem C4_percentage_relation (c : DistillationColumn) (r : EvaluationResult)
    (h : simulate c = .ok r) :
    r.flooding_percentage = r.operating_velocity / r.flooding_velocity * 100 := by
  simp only [simulate, bind_eq_ok_iff] at h
  obtain ⟨vopt, hopt, vflood, hfl, p, hp, hr⟩ := h
  have hr' := Except.ok.inj hr
  rw [fdiv_eq_ok_iff] at hp
  subst hr'
  simp [hp.2]

/-- Witness for C4 at the concrete column
`DistillationColumn(1, 1, 1, 1, 1, 0, 0, 4, 1, 1, 20)`, whose simulation
succeeds. -/
theorem C4_percentage_relation_witness :
    ({ flooding_velocity := specVflood exampleColumn 1 1
       operating_velocity := specVopt exampleColumn 1
       flooding_percentage :=
         specVopt exampleColumn 1 / specVflood exampleColumn 1 1 * 100 }
      : EvaluationResult).flooding_percentage
    = ({ flooding_velocity := specVflood exampleColumn 1 1
         operating_velocity := specVopt exampleColumn 1
         flooding_percentage :=
           specVopt exampleColumn 1 / specVflood exampleColumn 1 1 * 100 }
        : EvaluationResult).operating_velocity
      / ({ flooding_velocity := specVflood exampleColumn 1 1
           operating_velocity := specVopt exampleColumn 1
           flooding_percentage :=
             specVopt exampleColumn 1 / specVflood exampleColumn 1 1 * 100 }
          : EvaluationResult).flooding_velocity * 100 :=
  C4_percentage_relation exampleColumn _ simulate_exampleColumn

/-- Claim C5: with densities and surface tension fixed and
`liquid_density > vapor_density > 0`, the flooding velocity is invariant under
scaling both mass-flow arguments by the same `k > 0`:
`calculate_flooding_velocity(k*B, k*V) = calculate_flooding_velocity(B, V)`
for all positive `B`, `V`. -/
theorem C5_flooding_velocity_scaling_invariant (c : DistillationColumn)
    (k B V : ℝ) (hk : 0 < k) (hB : 0 < B) (hV : 0 < V)
    (hρv : 0 < c.vapor_density) (hρl : c.vapor_density < c.liquid_density) :
    calculate_flooding_velocity c (k * B) (k * V)
      = calculate_flooding_velocity c B V := by
  have h1 := calculate_flooding_velocity_eq c (k * B) (k * V)
    (mul_pos hk hV).ne' (div_pos (mul_pos hk hB) (mul_pos hk hV)) hρv hρl
  have h2 := calculate_flooding_velocity_eq c B V hV.ne' (div_pos hB hV) hρv hρl
  have hFlv : k * B / (k * V) = B / V := by
    rw [div_eq_div_iff (by positivity) (by positivity)]
    ring
  rw [h1, h2]
  simp [specVflood, specCsbf, specFlv, hFlv]

/-- Witness for C5 at the concrete column
`DistillationColumn(1, 1, 1, 1, 1, 0, 0, 4, 1, 1, 20)` with `k = 2`,
`B = V = 1`. -/
theorem C5_flooding_velocity_scaling_invariant_witness :
    (0 : ℝ) < 2 ∧ (0 : ℝ) < 1 ∧ 0 < exampleColumn.vapor_density
      ∧ exampleColumn.vapor_density < exampleColumn.liquid_density
      ∧ calculate_flooding_velocity exampleColumn (2 * 1) (2 * 1)
        = calculate_flooding_velocity exampleColumn 1 1 :=
  ⟨by norm_num, by norm_num, by simp [exampleColumn, mkDistillationColumn],
    by simp [exampleColumn, mkDistillationColumn],
    C5_flooding_velocity_scaling_invariant exampleColumn 2 1 1 (by norm_num)
      (by norm_num) (by norm_num)
      (by simp [exampleColumn, mkDistillationColumn])
      (by simp [exampleColumn, mkDistillationColumn])⟩

/-- Claim C8: for every ColumnSpec whose derived vapor mass flow
`Dmass_flow * (reflux_ratio + 1)` is zero, `simulate` fails with a
`ZeroDivisionError` and produces no `EvaluationResult`. -/
theorem C8_zero_vapor_mass_flow_fails (c : DistillationColumn)
    (h : c.Dmass_flow * (c.reflux_ratio + 1) = 0) :
    simulate c = .error .zeroDivision := by
  by_cases hden : c.vapor_density * c.cross_sectional_area * 3600 = 0
  · simp [simulate, calculate_opt_velocity, calculate_flow_rates, hden,
      fdiv_zero, error_bind]
  · simp [simulate, calculate_opt_velocity, calculate_flow_rates,
      calculate_flooding_velocity, fdiv_ok hden,
      fdiv_ok (show (0.3048 : ℝ) ≠ 0 by norm_num), ok_bind, h, fdiv_zero,
      error_bind]

/-- Witness for C8: `DistillationColumn(1, 1, 1, 0, 1, 0, 0, 4, 1, 1, 20)`
(distillate mass flow 0, hence vapor mass flow 0). -/
theorem C8_zero_vapor_mass_flow_fails_witness :
    (mkDistillationColumn 1 1 1 0 1 0 0 4 1 1 20).Dmass_flow
        * ((mkDistillationColumn 1 1 1 0 1 0 0 4 1 1 20).reflux_ratio + 1) = 0
      ∧ simulate (mkDistillationColumn 1 1 1 0 1 0 0 4 1 1 20)
        = .error .zeroDivision :=
  ⟨by simp [mkDistillationColumn],
    C8_zero_vapor_mass_flow_fails (mkDistillationColumn 1 1 1 0 1 0 0 4 1 1 20)
      (by simp [mkDistillationColumn])⟩

/-- Claim C9: the derived `cross_sectional_area` equals
`0.85 * π * diameter^2 / 4` (exact equality, which subsumes the claimed 1e-9
relative tolerance), is computed at construction, and is left unchanged by
every operation of the pipeline. -/
theorem C9_cross_sectional_area (diameter Dmole Bmole Dmass Bmass rr br ρl ρv
    mw σ : ℝ) :
    (mkDistillationColumn diameter Dmole Bmole Dmass Bmass rr br ρl ρv mw
        σ).cross_sectional_area = 0.85 * Real.pi * diameter ^ 2 / 4
    ∧ ((calculate_flow_ratesS (mkDistillationColumn diameter Dmole Bmole Dmass
        Bmass rr br ρl ρv mw σ)).2).cross_sectional_area
      = 0.85 * Real.pi * diameter ^ 2 / 4
    ∧ ((simulateS (mkDistillationColumn diameter Dmole Bmole Dmass Bmass rr br
        ρl ρv mw σ)).2).cross_sectional_area
      = 0.85 * Real.pi * diameter ^ 2 / 4 := by
  have harea : (mkDistillationColumn diameter Dmole Bmole Dmass Bmass rr br ρl
      ρv mw σ).cross_sectional_area = 0.85 * Real.pi * diameter ^ 2 / 4 := by
    simp only [mkDistillationColumn]
    ring
  exact ⟨harea, harea, harea⟩

/-- Claim C10: none of `calculate_flow_rates`, `calculate_opt_velocity`,
`calculate_flooding_velocity`, `simulate` changes any of the twelve stored
attributes (no method body assigns to `self`), so repeated calls on the same
spec return equal results. -/
theorem C10_pipeline_preserves_spec (c : DistillationColumn) :
    (calculate_flow_ratesS c).2 = c
    ∧ (∀ V : ℝ, (calculate_opt_velocityS c V).2 = c)
    ∧ (∀ B V : ℝ, (calculate_flooding_velocityS c B V).2 = c)
    ∧ (simulateS c).2 = c
    ∧ (simulateS c).2.diameter = c.diameter
    ∧ (simulateS c).2.Dmole_flow = c.Dmole_flow
    ∧ (simulateS c).2.Bmole_flow = c.Bmole_flow
    ∧ (simulateS c).2.Dmass_flow = c.Dmass_flow
    ∧ (simulateS c).2.Bmass_flow = c.Bmass_flow
    ∧ (simulateS c).2.reflux_ratio = c.reflux_ratio
    ∧ (simulateS c).2.boilup_ratio = c.boilup_ratio
    ∧ (simulateS c).2.liquid_density = c.liquid_density
    ∧ (simulateS c).2.vapor_density = c.vapor_density
    ∧ (simulateS c).2.molecular_weight = c.molecular_weight
    ∧ (simulateS c).2.surface_tension = c.surface_tension
    ∧ (simulateS c).2.cross_sectional_area = c.cross_sectional_area
    ∧ simulate (simulateS c).2 = simulate c
    ∧ calculate_flow_rates (calculate_flow_ratesS c).2
      = calculate_flow_rates c :=
  ⟨rfl, fun _ => rfl, fun _ _ => rfl, rfl, rfl, rfl, rfl, rfl, rfl, rfl, rfl,
    rfl, rfl, rfl, rfl, rfl, rfl, rfl⟩

/-- Claim C6 counterexample: at the concrete column
`DistillationColumn(1, 1, 1, 1, 1, 0, 0, 4, 1, 1, 20)`, scaling all four flow
inputs by `1.33` changes the flooding percentage returned by `simulate` (it is
multiplied by 1.33), refuting the claim that it is left unchanged. -/
theorem C6_counterexample :
    Except.map EvaluationResult.flooding_percentage
        (simulate (scaleFlows 1.33 exampleColumn))
      ≠ Except.map EvaluationResult.flooding_percentage
        (simulate exampleColumn) := by
  have hπ := Real.pi_pos
  have hden' : (scaleFlows 1.33 exampleColumn).vapor_density
      * (scaleFlows 1.33 exampleColumn).cross_sectional_area * 3600 ≠ 0 :=
    exampleColumn_den
  have h2 := simulate_eq_ok (scaleFlows 1.33 exampleColumn) hden'
    (by norm_num [scaleFlows, exampleColumn, mkDistillationColumn])
    (by norm_num [scaleFlows, exampleColumn, mkDistillationColumn])
    (by norm_num [scaleFlows, exampleColumn, mkDistillationColumn])
    (by norm_num [scaleFlows, exampleColumn, mkDistillationColumn])
    (by norm_num [scaleFlows, exampleColumn, mkDistillationColumn])
  have h2' : simulate (scaleFlows 1.33 exampleColumn) = .ok
      { flooding_velocity := specVflood (scaleFlows 1.33 exampleColumn)
          1.33 1.33
        operating_velocity := specVopt (scaleFlows 1.33 exampleColumn) 1.33
        flooding_percentage := specVopt (scaleFlows 1.33 exampleColumn) 1.33
          / specVflood (scaleFlows 1.33 exampleColumn) 1.33 1.33 * 100 } := by
    simpa [scaleFlows, exampleColumn, mkDistillationColumn] using h2
  have hA : specVflood (scaleFlows 1.33 exampleColumn) 1.33 1.33
      = specVflood exampleColumn 1 1 := by
    norm_num [specVflood, specCsbf, specFlv, scaleFlows, exampleColumn,
      mkDistillationColumn]
  have hB : specVopt (scaleFlows 1.33 exampleColumn) 1.33
      = 1.33 * specVopt exampleColumn 1 := by
    simp only [specVopt, scaleFlows, exampleColumn, mkDistillationColumn]
    ring
  have hvo : 0 < specVopt exampleColumn 1 := by
    simp only [specVopt, exampleColumn, mkDistillationColumn]
    positivity
  have hvf : 0 < specVflood exampleColumn 1 1 :=
    specVflood_pos exampleColumn 1 1
      (by simp [exampleColumn, mkDistillationColumn])
      (by simp [exampleColumn, mkDistillationColumn])
      (by simp [exampleColumn, mkDistillationColumn])
  rw [h2', simulate_exampleColumn]
  simp only [Except.map, ne_eq, Except.ok.injEq, hA, hB]
  intro heq
  have hrw : (1.33 : ℝ) * specVopt exampleColumn 1
        / specVflood exampleColumn 1 1 * 100
      = 1.33 * (specVopt exampleColumn 1 / specVflood exampleColumn 1 1 * 100)
      := by ring
  rw [hrw] at heq
  have hx : 0 < specVopt exampleColumn 1 / specVflood exampleColumn 1 1 * 100
    := by positivity
  nlinarith [heq, hx]

/-- Claim C6 (amended): for a valid ColumnSpec and `k > 0`, scaling all four
flow inputs by `k` multiplies the flooding percentage returned by `simulate`
by `k` (the flooding velocity is unchanged while the operating velocity scales
by `k`); it is unchanged only for `k = 1`. -/
theorem C6_amended_percentage_scales (c : DistillationColumn) (k : ℝ)
    (hk : 0 < k)
    (hden : c.vapor_density * c.cross_sectional_area * 3600 ≠ 0)
    (hV : c.Dmass_flow * (c.reflux_ratio + 1) ≠ 0)
    (hBV : 0 < c.Bmass_flow * (c.boilup_ratio + 1)
      / (c.Dmass_flow * (c.reflux_ratio + 1)))
    (hρv : 0 < c.vapor_density) (hρl : c.vapor_density < c.liquid_density)
    (hσ : 0 < c.surface_tension) :
    Except.map EvaluationResult.flooding_percentage (simulate (scaleFlows k c))
      = Except.map (fun x => k * x)
          (Except.map EvaluationResult.flooding_percentage (simulate c)) := by
  have hV' : (scaleFlows k c).Dmass_flow
      * ((scaleFlows k c).reflux_ratio + 1) ≠ 0 := by
    show k * c.Dmass_flow * (c.reflux_ratio + 1) ≠ 0
    rw [mul_assoc]
    exact mul_ne_zero hk.ne' hV
  have hdivV : k * c.Dmass_flow * (c.reflux_ratio + 1)
      = k * (c.Dmass_flow * (c.reflux_ratio + 1)) := by ring
  have hdivB : k * c.Bmass_flow * (c.boilup_ratio + 1)
      = k * (c.Bmass_flow * (c.boilup_ratio + 1)) := by ring
  have hcancel : k * c.Bmass_flow * (c.boilup_ratio + 1)
        / (k * c.Dmass_flow * (c.reflux_ratio + 1))
      = c.Bmass_flow * (c.boilup_ratio + 1)
        / (c.Dmass_flow * (c.reflux_ratio + 1)) := by
    rw [hdivV, hdivB, div_eq_div_iff (mul_ne_zero hk.ne' hV) hV]
    ring
  have hBV' : 0 < (scaleFlows k c).Bmass_flow
        * ((scaleFlows k c).boilup_ratio + 1)
      / ((scaleFlows k c).Dmass_flow * ((scaleFlows k c).reflux_ratio + 1))
      := by
    show 0 < k * c.Bmass_flow * (c.boilup_ratio + 1)
      / (k * c.Dmass_flow * (c.reflux_ratio + 1))
    rw [hcancel]
    exact hBV
  have h1 := simulate_eq_ok c hden hV hBV hρv hρl hσ
  have h2 := simulate_eq_ok (scaleFlows k c) hden hV' hBV' hρv hρl hσ
  have hA : specVflood (scaleFlows k c)
        ((scaleFlows k c).Bmass_flow * ((scaleFlows k c).boilup_ratio + 1))
        ((scaleFlows k c).Dmass_flow * ((scaleFlows k c).reflux_ratio + 1))
      = specVflood c (c.Bmass_flow * (c.boilup_ratio + 1))
        (c.Dmass_flow * (c.reflux_ratio + 1)) := by
    show specVflood (scaleFlows k c) (k * c.Bmass_flow * (c.boilup_ratio + 1))
        (k * c.Dmass_flow * (c.reflux_ratio + 1)) = _
    simp only [specVflood, specCsbf, specFlv, scaleFlows, hcancel]
  have hB : specVopt (scaleFlows k c)
        ((scaleFlows k c).Dmole_flow * ((scaleFlows k c).reflux_ratio + 1))
      = k * specVopt c (c.Dmole_flow * (c.reflux_ratio + 1)) := by
    show specVopt (scaleFlows k c) (k * c.Dmole_flow * (c.reflux_ratio + 1))
      = _
    simp only [specVopt, scaleFlows]
    ring
  rw [h1, h2]
  simp only [Except.map, hA, hB]
  congr 1
  ring

/-- Witness for the amended C6 at the concrete column
`DistillationColumn(1, 1, 1, 1, 1, 0, 0, 4, 1, 1, 20)` with `k = 2`. -/
theorem C6_amended_percentage_scales_witness :
    Except.map EvaluationResult.flooding_percentage
        (simulate (scaleFlows 2 exampleColumn))
      = Except.map (fun x => (2 : ℝ) * x)
          (Except.map EvaluationResult.flooding_percentage
            (simulate exampleColumn)) :=
  C6_amended_percentage_scales exampleColumn 2 (by norm_num) exampleColumn_den
    (by simp [exampleColumn, mkDistillationColumn])
    (by simp [exampleColumn, mkDistillationColumn])
    (by simp [exampleColumn, mkDistillationColumn])
    (by simp [exampleColumn, mkDistillationColumn])
    (by simp [exampleColumn, mkDistillationColumn])

/-- Claim C7 counterexample: constructing with `diameter = 0` (and otherwise
legal parameters) does not fail: it returns the record that stores all eleven
parameters unchanged, with `cross_sectional_area = 0`. -/
theorem C7_counterexample :
    mkDistillationColumn 0 1 1 1 1 0 0 2 1 1 20
      = ⟨0, 1, 1, 1, 1, 0, 0, 2, 1, 1, 20, 0⟩ := by
  simp only [mkDistillationColumn, DistillationColumn.mk.injEq]
  norm_num

/-- Claim C7 (amended): the constructor performs no validation and never
fails: for arbitrary inputs (including non-positive diameter or densities and
`liquid_density ≤ vapor_density`) it returns the record storing the eleven
parameters with `cross_sectional_area = 0.85 * (π * diameter^2) / 4`; with
`diameter = 0` the NaN/∞-style failure is only surfaced downstream, where
`simulate` fails with `ZeroDivisionError`. -/
theorem C7_amended_construction_never_fails (d m1 m2 m3 m4 rr br ρl ρv mw
    σ : ℝ) :
    (mkDistillationColumn d m1 m2 m3 m4 rr br ρl ρv mw σ).diameter = d
    ∧ (mkDistillationColumn d m1 m2 m3 m4 rr br ρl ρv mw σ).Dmole_flow = m1
    ∧ (mkDistillationColumn d m1 m2 m3 m4 rr br ρl ρv mw σ).Bmole_flow = m2
    ∧ (mkDistillationColumn d m1 m2 m3 m4 rr br ρl ρv mw σ).Dmass_flow = m3
    ∧ (mkDistillationColumn d m1 m2 m3 m4 rr br ρl ρv mw σ).Bmass_flow = m4
    ∧ (mkDistillationColumn d m1 m2 m3 m4 rr br ρl ρv mw σ).reflux_ratio = rr
    ∧ (mkDistillationColumn d m1 m2 m3 m4 rr br ρl ρv mw σ).boilup_ratio = br
    ∧ (mkDistillationColumn d m1 m2 m3 m4 rr br ρl ρv mw
        σ).liquid_density = ρl
    ∧ (mkDistillationColumn d m1 m2 m3 m4 rr br ρl ρv mw σ).vapor_density = ρv
    ∧ (mkDistillationColumn d m1 m2 m3 m4 rr br ρl ρv mw
        σ).molecular_weight = mw
    ∧ (mkDistillationColumn d m1 m2 m3 m4 rr br ρl ρv mw
        σ).surface_tension = σ
    ∧ (mkDistillationColumn d m1 m2 m3 m4 rr br ρl ρv mw
        σ).cross_sectional_area = 0.85 * (Real.pi * d ^ 2) / 4
    ∧ (d = 0 → simulate (mkDistillationColumn d m1 m2 m3 m4 rr br ρl ρv mw σ)
        = .error .zeroDivision) := by
  refine ⟨rfl, rfl, rfl, rfl, rfl, rfl, rfl, rfl, rfl, rfl, rfl, rfl, ?_⟩
  intro hd
  subst hd
  simp [simulate, calculate_opt_velocity, calculate_flow_rates,
    mkDistillationColumn, fdiv_zero, error_bind]

/-- Witness for the amended C7 at the concrete inputs
`(0, 1, 1, 1, 1, 0, 0, 2, 1, 1, 20)` (diameter zero). -/
theorem C7_amended_construction_never_fails_witness :
    simulate (mkDistillationColumn 0 1 1 1 1 0 0 2 1 1 20)
      = .error .zeroDivision :=
  (C7_amended_construction_never_fails 0 1 1 1 1 0 0 2 1 1
    20).2.2.2.2.2.2.2.2.2.2.2.2 rfl

end Flooding
